import Mathlib

/-!
Formal model of the passport photo layout generator.

The repository contains two variants of one image-processing pipeline:
`generate_passport_layout.py` (variant A, module-level script, 2x3 grid with
evenly distributed spacing) and `generate_passport_layout_v2.py` (variant B,
function-based, 3x2 centered block with dotted guidelines).

The embedding models images by their integer dimensions, PIL crop boxes by
their four integer coordinates, and the pasted photo placements as lists of
integer rectangles.  Python `//` (floor division) always has a positive
divisor in this code, so it is modelled with `Int` division `/`, which is
Euclidean division and coincides with floor division for positive divisors.
Python `int(...)` applied to a nonnegative float is truncation toward zero,
modelled by `int_trunc` over exact rationals.
-/

namespace PassportLayout

/-- Truncation toward zero on rationals, modelling Python `int(...)`. -/
def int_trunc (q : ℚ) : ℤ := if 0 ≤ q then ⌊q⌋ else -⌊-q⌋

/-- A PIL crop box `(left, top, right, bottom)`, as passed to `Image.crop`. -/
structure CropBox where
  left : ℤ
  top : ℤ
  right : ℤ
  bottom : ℤ
deriving DecidableEq

/-- Width of the image produced by cropping to this box. -/
def CropBox.width (c : CropBox) : ℤ := c.right - c.left

/-- Height of the image produced by cropping to this box. -/
def CropBox.height (c : CropBox) : ℤ := c.bottom - c.top

/-- Center crop of a `w` by `h` image to the target aspect ratio, from
`crop_image_to_aspect_ratio` in `generate_passport_layout_v2.py` (lines
59-81); the module-level code of `generate_passport_layout.py` (lines 17-30)
performs the identical computation. -/
def crop_image_to_aspect_ratio (w h : ℤ) (aspect_target : ℚ) : CropBox :=
  if (w : ℚ) / (h : ℚ) > aspect_target then
    -- image is wider than target, crop width
    let new_width : ℤ := int_trunc ((h : ℚ) * aspect_target)
    let left : ℤ := (w - new_width) / 2
    ⟨left, 0, left + new_width, h⟩
  else
    -- image is taller than target, crop height
    let new_height : ℤ := int_trunc ((w : ℚ) / aspect_target)
    let top : ℤ := (h - new_height) / 2
    ⟨0, top, w, top + new_height⟩

/-- An axis-aligned rectangle on the layout canvas: top-left corner `(x, y)`,
width `w`, height `h`. -/
structure Rect where
  x : ℤ
  y : ℤ
  w : ℤ
  h : ℤ
deriving DecidableEq

/-- The rectangle lies fully inside a canvas of size `W` by `H`. -/
def Rect.inside (r : Rect) (w2 h2 : ℤ) : Bool :=
  decide (0 ≤ r.x) && decide (0 ≤ r.y) && decide (r.x + r.w ≤ w2) && decide (r.y + r.h ≤ h2)

/-- The two rectangles have no interior overlap (they may share an edge). -/
def Rect.disjointWith (r s : Rect) : Bool :=
  decide (r.x + r.w ≤ s.x) || decide (s.x + s.w ≤ r.x) ||
  decide (r.y + r.h ≤ s.y) || decide (s.y + s.h ≤ r.y)

/-! ### Variant A: `generate_passport_layout.py` -/

namespace V1

/-- Indian passport photo size at 300 DPI (line 7). -/
def passport_px : ℤ × ℤ := (413, 531)

/-- White border around the photo (line 8). -/
def border : ℤ := 20

/-- Framed photo size (line 9). -/
def final_photo_size : ℤ × ℤ := (passport_px.1 + 2 * border, passport_px.2 + 2 * border)

/-- 4x6 inch photo paper at 300 DPI (line 12). -/
def layout_size : ℤ × ℤ := (1200, 1800)

/-- Grid rows (line 38). -/
def rows : ℕ := 2

/-- Grid columns (line 38). -/
def cols : ℕ := 3

/-- Horizontal gap between grid cells (line 39). -/
def x_spacing : ℤ := (layout_size.1 - (cols * final_photo_size.1)) / (cols + 1)

/-- Vertical gap between grid cells (line 40). -/
def y_spacing : ℤ := (layout_size.2 - (rows * final_photo_size.2)) / (rows + 1)

/-- x coordinate of the pasted photo in column `col` (line 44). -/
def cellX (col : ℕ) : ℤ := x_spacing + col * (final_photo_size.1 + x_spacing)

/-- y coordinate of the pasted photo in row `row` (line 45). -/
def cellY (row : ℕ) : ℤ := y_spacing + row * (final_photo_size.2 + y_spacing)

/-- The rectangles covered by the `layout.paste` calls of the double loop
(lines 42-46), in paste order. -/
def pastedRects : List Rect :=
  (List.range rows).flatMap fun row =>
    (List.range cols).map fun col =>
      ⟨cellX col, cellY row, final_photo_size.1, final_photo_size.2⟩

/-- Placement of the resized photo inside the framed canvas: pasted at
`(border, border)` with the passport photo size (lines 33-35). -/
def framed_photo_rect : Rect := ⟨border, border, passport_px.1, passport_px.2⟩

end V1

/-! ### Variant B: `generate_passport_layout_v2.py` -/

namespace V2

/-- Standard Indian passport photo size at 300 DPI (line 24). -/
def PASSPORT_PHOTO_PX : ℤ × ℤ := (413, 531)

/-- Target aspect ratio, width over height (line 25). -/
def ASPECT_RATIO : ℚ := (PASSPORT_PHOTO_PX.1 : ℚ) / (PASSPORT_PHOTO_PX.2 : ℚ)

/-- 4x6 inch photo paper at 300 DPI (line 28). -/
def LAYOUT_PX : ℤ × ℤ := (1200, 1800)

/-- Grid rows (line 32). -/
def GRID_ROWS : ℕ := 3

/-- Grid columns (line 33). -/
def GRID_COLS : ℕ := 2

/-- White border around each photo (line 34). -/
def PHOTO_BORDER_PX : ℤ := 20

/-- Guideline stroke width (line 36). -/
def GUIDELINE_WIDTH : ℕ := 2

/-- Gap in the dotted guideline (line 37). -/
def DOTTED_LINE_GAP : ℕ := 10

/-- Number of iterations of the dash loop in `draw_dotted_line` (line 44):
`int(length / (width + gap))` where `length` is the Euclidean length of the
segment.  Over the integers, the floor of `sqrt s / k` equals
`Nat.sqrt s / k`. -/
def numDots (s e : ℤ × ℤ) (width gap : ℕ) : ℕ :=
  Nat.sqrt ((e.1 - s.1).natAbs ^ 2 + (e.2 - s.2).natAbs ^ 2) / (width + gap)

/-- The dashes drawn by `draw_dotted_line` (lines 39-48), each a pair of
endpoints in exact rational coordinates.  Returns `none` exactly when the
Python code would raise `ZeroDivisionError`, i.e. when `width + gap = 0`
(the divisions by `num_dots` inside the loop only run when `num_dots > 0`). -/
def draw_dotted_line (s e : ℤ × ℤ) (width gap : ℕ) :
    Option (List ((ℚ × ℚ) × (ℚ × ℚ))) :=
  if width + gap = 0 then none
  else
    let dist_x : ℚ := (e.1 : ℚ) - (s.1 : ℚ)
    let dist_y : ℚ := (e.2 : ℚ) - (s.2 : ℚ)
    let num_dots : ℕ := numDots s e width gap
    some ((List.range num_dots).map fun (i : ℕ) =>
      (((s.1 : ℚ) + dist_x * (i : ℚ) / (num_dots : ℚ),
        (s.2 : ℚ) + dist_y * (i : ℚ) / (num_dots : ℚ)),
       ((s.1 : ℚ) + dist_x * ((i : ℚ) + 1/2) / (num_dots : ℚ),
        (s.2 : ℚ) + dist_y * ((i : ℚ) + 1/2) / (num_dots : ℚ))))

/-- The dashes drawn by `draw_dotted_rectangle` (lines 50-56): the four
edges in source order. -/
def draw_dotted_rectangle (x0 y0 x1 y1 : ℤ) (width gap : ℕ) :
    Option (List ((ℚ × ℚ) × (ℚ × ℚ))) := do
  let top ← draw_dotted_line (x0, y0) (x1, y0) width gap
  let right ← draw_dotted_line (x1, y0) (x1, y1) width gap
  let bottom ← draw_dotted_line (x1, y1) (x0, y1) width gap
  let left ← draw_dotted_line (x0, y1) (x0, y0) width gap
  pure (top ++ right ++ bottom ++ left)

/-- Framed photo size computed in `create_photo_layout` (lines 110-113). -/
def final_photo_size : ℤ × ℤ :=
  (PASSPORT_PHOTO_PX.1 + 2 * PHOTO_BORDER_PX, PASSPORT_PHOTO_PX.2 + 2 * PHOTO_BORDER_PX)

/-- Placement of the resized photo inside the framed canvas: pasted at
`(PHOTO_BORDER_PX, PHOTO_BORDER_PX)` (line 115). -/
def framed_photo_rect : Rect :=
  ⟨PHOTO_BORDER_PX, PHOTO_BORDER_PX, PASSPORT_PHOTO_PX.1, PASSPORT_PHOTO_PX.2⟩

/-- Total width of the photo block (line 123). -/
def block_width : ℤ := GRID_COLS * final_photo_size.1

/-- Total height of the photo block (line 124). -/
def block_height : ℤ := GRID_ROWS * final_photo_size.2

/-- Left edge of the centered photo block (line 127). -/
def start_x : ℤ := (LAYOUT_PX.1 - block_width) / 2

/-- Top edge of the centered photo block (line 128). -/
def start_y : ℤ := (LAYOUT_PX.2 - block_height) / 2

/-- The rectangles covered by the `layout.paste` calls of the double loop
(lines 131-135), in paste order. -/
def pastedRects : List Rect :=
  (List.range GRID_ROWS).flatMap fun row =>
    (List.range GRID_COLS).map fun col =>
      ⟨start_x + col * final_photo_size.1, start_y + row * final_photo_size.2,
       final_photo_size.1, final_photo_size.2⟩

/-- A source image, modelled by its pixel dimensions. -/
structure SourceImage where
  width : ℤ
  height : ℤ
deriving DecidableEq

/-- The finished layout: canvas size, the crop box applied to the source
image, and the placements of the six framed copies. -/
structure Layout where
  canvas : ℤ × ℤ
  source_crop : CropBox
  photoRects : List Rect
deriving DecidableEq

/-- Observable outcome of one run of `create_photo_layout`: the process exit
code (`sys.exit(1)` on failure, `0` on normal return), whether an error
message was printed, and the document written to the output path, if any. -/
structure RunResult where
  exitCode : ℕ
  errorPrinted : Bool
  output : Option Layout
deriving DecidableEq

/-- `create_photo_layout` (lines 84-152).  `input` is the result of
`Image.open` on the input path (`none` when the file does not exist or cannot
be read, which the code catches and turns into `sys.exit(1)` before any
processing); `output_writable` tells whether the final `layout.save` succeeds
(when it does not, the code catches the error and calls `sys.exit(1)` with
no output file produced). -/
def create_photo_layout (input : Option SourceImage) (output_writable : Bool) : RunResult :=
  match input with
  | none => { exitCode := 1, errorPrinted := true, output := none }
  | some img =>
    let cropped := crop_image_to_aspect_ratio img.width img.height ASPECT_RATIO
    let layout : Layout :=
      { canvas := LAYOUT_PX, source_crop := cropped, photoRects := pastedRects }
    if output_writable then { exitCode := 0, errorPrinted := false, output := some layout }
    else { exitCode := 1, errorPrinted := true, output := none }

/-- The program entry (`main`, lines 155-177) applied to a filesystem: the
input path is looked up in `fs` (this is `Image.open`), and the result is
handed to `create_photo_layout`. -/
def run_program (fs : String → Option SourceImage) (input_photo : String)
    (output_writable : Bool) : RunResult :=
  create_photo_layout (fs input_photo) output_writable

/-- The point at parameter `t` along the segment from `s` to `e`. -/
def point_at (s e : ℤ × ℤ) (t : ℚ) : ℚ × ℚ :=
  ((s.1 : ℚ) + t * ((e.1 : ℚ) - (s.1 : ℚ)), (s.2 : ℚ) + t * ((e.2 : ℚ) - (s.2 : ℚ)))

end V2

end PassportLayout

/-! ### Claims -/

namespace PassportLayout

/-- C1: the grid compositor pastes exactly R*C framed copies in both
variants, but only variant B keeps every pasted rectangle inside the canvas
and pairwise non-overlapping.  In variant A at the default constants the
leftmost column is pasted at x = -40, horizontally adjacent
rectangles overlap, so the claimed containment and disjointness fail there;
variant B satisfies all three parts. -/
theorem claim_C1 :
    (V1.pastedRects.length = V1.rows * V1.cols ∧
      V1.cellX 0 = -40 ∧
      V1.cellX 2 + V1.final_photo_size.1 = 1239 ∧
      ¬ (∀ r ∈ V1.pastedRects, r.inside V1.layout_size.1 V1.layout_size.2 = true) ∧
      ¬ V1.pastedRects.Pairwise (fun a b => a.disjointWith b = true)) ∧
    (V2.pastedRects.length = V2.GRID_ROWS * V2.GRID_COLS ∧
      (∀ r ∈ V2.pastedRects, r.inside V2.LAYOUT_PX.1 V2.LAYOUT_PX.2 = true) ∧
      V2.pastedRects.Pairwise (fun a b => a.disjointWith b = true)) := by
  decide

/-- C4: in both variants the framed photo measures exactly
`target + 2 * border` per axis, i.e. (453, 571), and the resized photo is
pasted at offset `(border, border)`, leaving a margin of exactly 20 pixels on
all four sides. -/
theorem claim_C4 :
    V1.final_photo_size = (453, 571) ∧
    V2.final_photo_size = (453, 571) ∧
    V1.final_photo_size =
      (V1.passport_px.1 + 2 * V1.border, V1.passport_px.2 + 2 * V1.border) ∧
    V2.final_photo_size =
      (V2.PASSPORT_PHOTO_PX.1 + 2 * V2.PHOTO_BORDER_PX,
       V2.PASSPORT_PHOTO_PX.2 + 2 * V2.PHOTO_BORDER_PX) ∧
    (V1.border = 20 ∧
      V1.framed_photo_rect.x = V1.border ∧
      V1.framed_photo_rect.y = V1.border ∧
      V1.final_photo_size.1 - (V1.framed_photo_rect.x + V1.framed_photo_rect.w) = V1.border ∧
      V1.final_photo_size.2 - (V1.framed_photo_rect.y + V1.framed_photo_rect.h) = V1.border) ∧
    (V2.PHOTO_BORDER_PX = 20 ∧
      V2.framed_photo_rect.x = V2.PHOTO_BORDER_PX ∧
      V2.framed_photo_rect.y = V2.PHOTO_BORDER_PX ∧
      V2.final_photo_size.1 - (V2.framed_photo_rect.x + V2.framed_photo_rect.w) = V2.PHOTO_BORDER_PX ∧
      V2.final_photo_size.2 - (V2.framed_photo_rect.y + V2.framed_photo_rect.h) = V2.PHOTO_BORDER_PX) := by
  decide

/-- C5, counterexample: at the variant A defaults the grid does not exactly
fill the canvas; floor division loses the remainder on both axes
(totals 1199 and 1799, not 1200 and 1800). -/
theorem claim_C5_counterexample :
    ¬ ((V1.cols : ℤ) * V1.final_photo_size.1 + ((V1.cols : ℤ) + 1) * V1.x_spacing =
         V1.layout_size.1 ∧
       (V1.rows : ℤ) * V1.final_photo_size.2 + ((V1.rows : ℤ) + 1) * V1.y_spacing =
         V1.layout_size.2) := by
  decide

/-- C5, amended: the spacing is the floor of `(canvas - n * photo) / (n + 1)`
per axis, so photos plus gaps fill the canvas only up to a shortfall smaller
than the number of gaps: at the defaults the totals are 1199 and 1799. -/
theorem claim_C5 :
    (V1.cols : ℤ) * V1.final_photo_size.1 + ((V1.cols : ℤ) + 1) * V1.x_spacing = 1199 ∧
    (V1.rows : ℤ) * V1.final_photo_size.2 + ((V1.rows : ℤ) + 1) * V1.y_spacing = 1799 ∧
    V1.layout_size.1 - 1199 < (V1.cols : ℤ) + 1 ∧
    V1.layout_size.2 - 1799 < (V1.rows : ℤ) + 1 := by
  decide

end PassportLayout

namespace PassportLayout

/-! ### Helper lemmas about the center crop -/

theorem int_trunc_of_nonneg {q : ℚ} (h : 0 ≤ q) : int_trunc q = ⌊q⌋ := if_pos h

theorem aspect_pos : (0 : ℚ) < V2.ASPECT_RATIO := by
  norm_num [ V2.ASPECT_RATIO, V2.PASSPORT_PHOTO_PX]

theorem aspect_le_one : V2.ASPECT_RATIO ≤ 1 := by
  norm_num [ V2.ASPECT_RATIO, V2.PASSPORT_PHOTO_PX]

/-- In the wider-than-target branch the crop box is explicit. -/
theorem crop_box_wide (w h : ℤ) (a : ℚ) (hh : 0 ≤ h) (ha : 0 ≤ a)
    (hgt : (w : ℚ) / (h : ℚ) > a) :
    crop_image_to_aspect_ratio w h a =
      ⟨(w - ⌊(h : ℚ) * a⌋) / 2, 0,
       (w - ⌊(h : ℚ) * a⌋) / 2 + ⌊(h : ℚ) * a⌋, h⟩ := by
  have hna : (0 : ℚ) ≤ (h : ℚ) * a := mul_nonneg (by exact_mod_cast hh) ha
  unfold crop_image_to_aspect_ratio
  rw [if_pos hgt]
  simp [int_trunc_of_nonneg hna]

/-- In the taller-than-target branch the crop box is explicit. -/
theorem crop_box_tall (w h : ℤ) (a : ℚ) (hw : 0 ≤ w) (ha : 0 ≤ a)
    (hngt : ¬ ((w : ℚ) / (h : ℚ) > a)) :
    crop_image_to_aspect_ratio w h a =
      ⟨0, (h - ⌊(w : ℚ) / a⌋) / 2, w,
       (h - ⌊(w : ℚ) / a⌋) / 2 + ⌊(w : ℚ) / a⌋⟩ := by
  have hna : (0 : ℚ) ≤ (w : ℚ) / a := div_nonneg (by exact_mod_cast hw) ha
  unfold crop_image_to_aspect_ratio
  rw [if_neg hngt]
  simp [int_trunc_of_nonneg hna]

/-- In the wider branch the new width is smaller than the original width. -/
theorem floor_mul_lt_w (w h : ℤ) (a : ℚ) (hh : 0 < h)
    (hgt : (w : ℚ) / (h : ℚ) > a) : ⌊(h : ℚ) * a⌋ < w := by
  have hh' : (0 : ℚ) < (h : ℚ) := by exact_mod_cast hh
  have hlt : (h : ℚ) * a < w := by
    have := mul_lt_mul_of_pos_left hgt hh'
    rw [mul_div_cancel₀ (w : ℚ) (ne_of_gt hh')] at this
    linarith
  have : ((⌊(h : ℚ) * a⌋ : ℤ) : ℚ) < (w : ℚ) := lt_of_le_of_lt (Int.floor_le _) hlt
  exact_mod_cast this

/-- In the taller branch the new height is at most the original height. -/
theorem floor_div_le_h (w h : ℤ) (a : ℚ) (ha : 0 < a) (hh : 0 < h)
    (hngt : ¬ ((w : ℚ) / (h : ℚ) > a)) : ⌊(w : ℚ) / a⌋ ≤ h := by
  have hh' : (0 : ℚ) < (h : ℚ) := by exact_mod_cast hh
  have hle : (w : ℚ) / (h : ℚ) ≤ a := not_lt.mp hngt
  have hwa : (w : ℚ) ≤ (h : ℚ) * a := by
    have := mul_le_mul_of_nonneg_right hle hh'.le
    rw [div_mul_cancel₀ (w : ℚ) (ne_of_gt hh')] at this
    linarith [mul_comm a (h : ℚ)]
  have hdiv : (w : ℚ) / a ≤ (h : ℚ) := by
    rw [div_le_iff₀ ha]
    linarith [mul_comm (h : ℚ) a]
  calc ⌊(w : ℚ) / a⌋ ≤ ⌊((h : ℤ) : ℚ)⌋ := Int.floor_le_floor hdiv
    _ = h := Int.floor_intCast h

theorem floor_mul_nonneg (h : ℤ) (a : ℚ) (hh : 0 ≤ h) (ha : 0 ≤ a) :
    0 ≤ ⌊(h : ℚ) * a⌋ :=
  Int.le_floor.mpr (by push_cast; exact mul_nonneg (by exact_mod_cast hh) ha)

theorem floor_div_nonneg (w : ℤ) (a : ℚ) (hw : 0 ≤ w) (ha : 0 ≤ a) :
    0 ≤ ⌊(w : ℚ) / a⌋ :=
  Int.le_floor.mpr (by push_cast; exact div_nonneg (by exact_mod_cast hw) ha)

/-- C2: for every source image with positive dimensions, the center crop with
target ratio 413/531 yields a box whose width differs from its height times
the target ratio by at most one pixel. -/
theorem claim_C2 (w h : ℤ) (hw : 0 < w) (hh : 0 < h) :
    |(((crop_image_to_aspect_ratio w h V2.ASPECT_RATIO).width : ℤ) : ℚ) -
      (((crop_image_to_aspect_ratio w h V2.ASPECT_RATIO).height : ℤ) : ℚ) *
        V2.ASPECT_RATIO| ≤ 1 := by
  have ha := aspect_pos
  have ha1 := aspect_le_one
  by_cases hgt : (w : ℚ) / (h : ℚ) > V2.ASPECT_RATIO
  · rw [crop_box_wide w h V2.ASPECT_RATIO hh.le ha.le hgt]
    simp only [CropBox.width, CropBox.height]
    have e1 : ((w - ⌊(h : ℚ) * V2.ASPECT_RATIO⌋) / 2 + ⌊(h : ℚ) * V2.ASPECT_RATIO⌋) -
        (w - ⌊(h : ℚ) * V2.ASPECT_RATIO⌋) / 2 = ⌊(h : ℚ) * V2.ASPECT_RATIO⌋ := by ring
    rw [e1]
    have f1 := Int.floor_le ((h : ℚ) * V2.ASPECT_RATIO)
    have f2 := Int.lt_floor_add_one ((h : ℚ) * V2.ASPECT_RATIO)
    have e2 : h - (0 : ℤ) = h := by ring
    rw [e2, abs_le]
    constructor <;> linarith
  · rw [crop_box_tall w h V2.ASPECT_RATIO hw.le ha.le hgt]
    simp only [CropBox.width, CropBox.height]
    have e1 : ((h - ⌊(w : ℚ) / V2.ASPECT_RATIO⌋) / 2 + ⌊(w : ℚ) / V2.ASPECT_RATIO⌋) -
        (h - ⌊(w : ℚ) / V2.ASPECT_RATIO⌋) / 2 = ⌊(w : ℚ) / V2.ASPECT_RATIO⌋ := by ring
    rw [e1]
    have e2 : w - (0 : ℤ) = w := by ring
    rw [e2]
    have f1 := Int.floor_le ((w : ℚ) / V2.ASPECT_RATIO)
    have f2 := Int.lt_floor_add_one ((w : ℚ) / V2.ASPECT_RATIO)
    have g1 : ((⌊(w : ℚ) / V2.ASPECT_RATIO⌋ : ℤ) : ℚ) * V2.ASPECT_RATIO ≤
        ((w : ℚ) / V2.ASPECT_RATIO) * V2.ASPECT_RATIO :=
      mul_le_mul_of_nonneg_right f1 ha.le
    have g2 : ((w : ℚ) / V2.ASPECT_RATIO) * V2.ASPECT_RATIO <
        (((⌊(w : ℚ) / V2.ASPECT_RATIO⌋ : ℤ) : ℚ) + 1) * V2.ASPECT_RATIO :=
      mul_lt_mul_of_pos_right f2 ha
    have g3 : ((w : ℚ) / V2.ASPECT_RATIO) * V2.ASPECT_RATIO = (w : ℚ) :=
      div_mul_cancel₀ (w : ℚ) (ne_of_gt ha)
    have g4 : (((⌊(w : ℚ) / V2.ASPECT_RATIO⌋ : ℤ) : ℚ) + 1) * V2.ASPECT_RATIO =
        ((⌊(w : ℚ) / V2.ASPECT_RATIO⌋ : ℤ) : ℚ) * V2.ASPECT_RATIO + V2.ASPECT_RATIO := by
      ring
    rw [abs_le]
    constructor <;> linarith

/-- Witness for C2 at the concrete image size 1000 by 1500. -/
theorem claim_C2_witness :
    (0 : ℤ) < 1000 ∧ (0 : ℤ) < 1500 ∧
    |(((crop_image_to_aspect_ratio 1000 1500 V2.ASPECT_RATIO).width : ℤ) : ℚ) -
      (((crop_image_to_aspect_ratio 1000 1500 V2.ASPECT_RATIO).height : ℤ) : ℚ) *
        V2.ASPECT_RATIO| ≤ 1 :=
  ⟨by decide, by decide, claim_C2 1000 1500 (by decide) (by decide)⟩

end PassportLayout

namespace PassportLayout

/-- C3: the crop is centered.  On both axes the leading and trailing removed
margins differ by at most one pixel, the leading offset is the floor of
`(original - target) / 2`, and one axis (the uncropped one) keeps its full
original extent. -/
theorem claim_C3 (w h : ℤ) (hw : 0 < w) (hh : 0 < h) :
    |(crop_image_to_aspect_ratio w h V2.ASPECT_RATIO).left -
        (w - (crop_image_to_aspect_ratio w h V2.ASPECT_RATIO).right)| ≤ 1 ∧
    |(crop_image_to_aspect_ratio w h V2.ASPECT_RATIO).top -
        (h - (crop_image_to_aspect_ratio w h V2.ASPECT_RATIO).bottom)| ≤ 1 ∧
    (crop_image_to_aspect_ratio w h V2.ASPECT_RATIO).left =
      (w - (crop_image_to_aspect_ratio w h V2.ASPECT_RATIO).width) / 2 ∧
    (crop_image_to_aspect_ratio w h V2.ASPECT_RATIO).top =
      (h - (crop_image_to_aspect_ratio w h V2.ASPECT_RATIO).height) / 2 ∧
    (((crop_image_to_aspect_ratio w h V2.ASPECT_RATIO).top = 0 ∧
        (crop_image_to_aspect_ratio w h V2.ASPECT_RATIO).bottom = h) ∨
      ((crop_image_to_aspect_ratio w h V2.ASPECT_RATIO).left = 0 ∧
        (crop_image_to_aspect_ratio w h V2.ASPECT_RATIO).right = w)) := by
  have ha := aspect_pos
  by_cases hgt : (w : ℚ) / (h : ℚ) > V2.ASPECT_RATIO
  · rw [crop_box_wide w h V2.ASPECT_RATIO hh.le ha.le hgt]
    simp only [CropBox.width, CropBox.height]
    refine ⟨by rw [abs_le]; omega, by rw [abs_le]; omega, by omega, by omega, by tauto⟩
  · rw [crop_box_tall w h V2.ASPECT_RATIO hw.le ha.le hgt]
    simp only [CropBox.width, CropBox.height]
    refine ⟨by rw [abs_le]; omega, by rw [abs_le]; omega, by omega, by omega, by tauto⟩

/-- Witness for C3 at the concrete image size 640 by 480. -/
theorem claim_C3_witness :
    (0 : ℤ) < 640 ∧ (0 : ℤ) < 480 ∧
    (|(crop_image_to_aspect_ratio 640 480 V2.ASPECT_RATIO).left -
        (640 - (crop_image_to_aspect_ratio 640 480 V2.ASPECT_RATIO).right)| ≤ 1 ∧
      |(crop_image_to_aspect_ratio 640 480 V2.ASPECT_RATIO).top -
        (480 - (crop_image_to_aspect_ratio 640 480 V2.ASPECT_RATIO).bottom)| ≤ 1 ∧
      (crop_image_to_aspect_ratio 640 480 V2.ASPECT_RATIO).left =
        (640 - (crop_image_to_aspect_ratio 640 480 V2.ASPECT_RATIO).width) / 2 ∧
      (crop_image_to_aspect_ratio 640 480 V2.ASPECT_RATIO).top =
        (480 - (crop_image_to_aspect_ratio 640 480 V2.ASPECT_RATIO).height) / 2 ∧
      (((crop_image_to_aspect_ratio 640 480 V2.ASPECT_RATIO).top = 0 ∧
          (crop_image_to_aspect_ratio 640 480 V2.ASPECT_RATIO).bottom = 480) ∨
        ((crop_image_to_aspect_ratio 640 480 V2.ASPECT_RATIO).left = 0 ∧
          (crop_image_to_aspect_ratio 640 480 V2.ASPECT_RATIO).right = 640))) :=
  ⟨by decide, by decide, claim_C3 640 480 (by decide) (by decide)⟩

/-- C10: for every source image with positive dimensions the crop rectangle
lies inside the source image, and the cropped image is never larger than the
source in either dimension. -/
theorem claim_C10 (w h : ℤ) (hw : 0 < w) (hh : 0 < h) :
    0 ≤ (crop_image_to_aspect_ratio w h V2.ASPECT_RATIO).left ∧
    0 ≤ (crop_image_to_aspect_ratio w h V2.ASPECT_RATIO).top ∧
    (crop_image_to_aspect_ratio w h V2.ASPECT_RATIO).right ≤ w ∧
    (crop_image_to_aspect_ratio w h V2.ASPECT_RATIO).bottom ≤ h ∧
    (crop_image_to_aspect_ratio w h V2.ASPECT_RATIO).left ≤
      (crop_image_to_aspect_ratio w h V2.ASPECT_RATIO).right ∧
    (crop_image_to_aspect_ratio w h V2.ASPECT_RATIO).top ≤
      (crop_image_to_aspect_ratio w h V2.ASPECT_RATIO).bottom ∧
    (crop_image_to_aspect_ratio w h V2.ASPECT_RATIO).width ≤ w ∧
    (crop_image_to_aspect_ratio w h V2.ASPECT_RATIO).height ≤ h := by
  have ha := aspect_pos
  by_cases hgt : (w : ℚ) / (h : ℚ) > V2.ASPECT_RATIO
  · have hnw := floor_mul_lt_w w h V2.ASPECT_RATIO hh hgt
    have hnn := floor_mul_nonneg h V2.ASPECT_RATIO hh.le ha.le
    rw [crop_box_wide w h V2.ASPECT_RATIO hh.le ha.le hgt]
    simp only [CropBox.width, CropBox.height]
    omega
  · have hnh := floor_div_le_h w h V2.ASPECT_RATIO ha hh hgt
    have hnn := floor_div_nonneg w V2.ASPECT_RATIO hw.le ha.le
    rw [crop_box_tall w h V2.ASPECT_RATIO hw.le ha.le hgt]
    simp only [CropBox.width, CropBox.height]
    omega

/-- Witness for C10 at the concrete image size 2000 by 100. -/
theorem claim_C10_witness :
    (0 : ℤ) < 2000 ∧ (0 : ℤ) < 100 ∧
    (0 ≤ (crop_image_to_aspect_ratio 2000 100 V2.ASPECT_RATIO).left ∧
      0 ≤ (crop_image_to_aspect_ratio 2000 100 V2.ASPECT_RATIO).top ∧
      (crop_image_to_aspect_ratio 2000 100 V2.ASPECT_RATIO).right ≤ 2000 ∧
      (crop_image_to_aspect_ratio 2000 100 V2.ASPECT_RATIO).bottom ≤ 100 ∧
      (crop_image_to_aspect_ratio 2000 100 V2.ASPECT_RATIO).left ≤
        (crop_image_to_aspect_ratio 2000 100 V2.ASPECT_RATIO).right ∧
      (crop_image_to_aspect_ratio 2000 100 V2.ASPECT_RATIO).top ≤
        (crop_image_to_aspect_ratio 2000 100 V2.ASPECT_RATIO).bottom ∧
      (crop_image_to_aspect_ratio 2000 100 V2.ASPECT_RATIO).width ≤ 2000 ∧
      (crop_image_to_aspect_ratio 2000 100 V2.ASPECT_RATIO).height ≤ 100) :=
  ⟨by decide, by decide, claim_C10 2000 100 (by decide) (by decide)⟩

end PassportLayout

namespace PassportLayout

/-- The loop count of `draw_dotted_line` equals the floor of the Euclidean
segment length divided by `width + gap`. -/
theorem numDots_eq_real_floor (s e : ℤ × ℤ) (width gap : ℕ) :
    V2.numDots s e width gap =
      ⌊Real.sqrt (((e.1 : ℝ) - (s.1 : ℝ)) ^ 2 + ((e.2 : ℝ) - (s.2 : ℝ)) ^ 2) /
        ((width : ℝ) + (gap : ℝ))⌋₊ := by
  have h1 : (((e.1 - s.1).natAbs ^ 2 + (e.2 - s.2).natAbs ^ 2 : ℕ) : ℝ) =
      ((e.1 : ℝ) - (s.1 : ℝ)) ^ 2 + ((e.2 : ℝ) - (s.2 : ℝ)) ^ 2 := by
    push_cast [Int.cast_natAbs, sq_abs]
    ring
  have h2 : (width : ℝ) + (gap : ℝ) = ((width + gap : ℕ) : ℝ) := by push_cast; ring
  rw [← h1, h2, Nat.floor_div_nat, Real.nat_floor_real_sqrt_eq_nat_sqrt]
  rfl

/-- C6: with the default guideline parameters, `draw_dotted_line` and
`draw_dotted_rectangle` never hit a division error for any endpoints,
including coincident ones; when the dash count rounds to zero the line
draws nothing and returns normally. -/
theorem claim_C6 (s e : ℤ × ℤ) :
    (V2.draw_dotted_line s e V2.GUIDELINE_WIDTH V2.DOTTED_LINE_GAP).isSome = true ∧
    (V2.numDots s e V2.GUIDELINE_WIDTH V2.DOTTED_LINE_GAP = 0 →
      V2.draw_dotted_line s e V2.GUIDELINE_WIDTH V2.DOTTED_LINE_GAP = some []) ∧
    (∀ x0 y0 x1 y1 : ℤ,
      (V2.draw_dotted_rectangle x0 y0 x1 y1
        V2.GUIDELINE_WIDTH V2.DOTTED_LINE_GAP).isSome = true) := by
  have hk : ¬ (V2.GUIDELINE_WIDTH + V2.DOTTED_LINE_GAP = 0) := by decide
  refine ⟨?_, ?_, ?_⟩
  · simp [V2.draw_dotted_line, hk]
  · intro h0
    simp [V2.draw_dotted_line, hk, h0]
  · intro x0 y0 x1 y1
    simp [V2.draw_dotted_rectangle, V2.draw_dotted_line, hk]

/-- Witness for C6: a zero-length guideline draws nothing and a degenerate
dotted rectangle still returns normally. -/
theorem claim_C6_witness :
    V2.draw_dotted_line (0, 0) (0, 0) V2.GUIDELINE_WIDTH V2.DOTTED_LINE_GAP = some [] ∧
    (V2.draw_dotted_rectangle 0 0 0 0 V2.GUIDELINE_WIDTH V2.DOTTED_LINE_GAP).isSome = true :=
  ⟨(claim_C6 (0, 0) (0, 0)).2.1 (by decide), (claim_C6 (0, 0) (0, 0)).2.2 0 0 0 0⟩

/-- C7: for distinct endpoints and a nonzero dash pitch, the dotted line
consists of exactly `n = floor(length / (width + gap))` dashes, the `i`-th
running from the point at parameter `i / n` to the point at parameter
`(i + 1/2) / n` along the segment, i.e. the first half of each of the `n`
equal sub-segments. -/
theorem claim_C7 (s e : ℤ × ℤ) (width gap : ℕ) (hk : width + gap ≠ 0)
    (_hne : s ≠ e) :
    ∃ segs, V2.draw_dotted_line s e width gap = some segs ∧
      segs.length = V2.numDots s e width gap ∧
      V2.numDots s e width gap =
        ⌊Real.sqrt (((e.1 : ℝ) - (s.1 : ℝ)) ^ 2 + ((e.2 : ℝ) - (s.2 : ℝ)) ^ 2) /
          ((width : ℝ) + (gap : ℝ))⌋₊ ∧
      ∀ i (hi : i < segs.length),
        segs.get ⟨i, hi⟩ =
          (V2.point_at s e ((i : ℚ) / (V2.numDots s e width gap : ℚ)),
           V2.point_at s e (((i : ℚ) + 1/2) / (V2.numDots s e width gap : ℚ))) := by
  unfold V2.draw_dotted_line
  rw [if_neg hk]
  refine ⟨_, rfl, by simp, numDots_eq_real_floor s e width gap, ?_⟩
  intro i hi
  simp only [List.length_map, List.length_range] at hi
  simp only [List.get_eq_getElem, List.getElem_map, List.getElem_range]
  unfold V2.point_at
  simp only [Prod.mk.injEq]
  refine ⟨⟨by ring, by ring⟩, by ring, by ring⟩

/-- Witness for C7 on the segment from (0, 0) to (30, 40). -/
theorem claim_C7_witness :
    V2.GUIDELINE_WIDTH + V2.DOTTED_LINE_GAP ≠ 0 ∧
    ((0, 0) : ℤ × ℤ) ≠ (30, 40) ∧
    (∃ segs, V2.draw_dotted_line (0, 0) (30, 40)
        V2.GUIDELINE_WIDTH V2.DOTTED_LINE_GAP = some segs ∧
      segs.length = V2.numDots (0, 0) (30, 40) V2.GUIDELINE_WIDTH V2.DOTTED_LINE_GAP ∧
      V2.numDots (0, 0) (30, 40) V2.GUIDELINE_WIDTH V2.DOTTED_LINE_GAP =
        ⌊Real.sqrt ((((30, 40) : ℤ × ℤ).1 - (((0, 0) : ℤ × ℤ).1 : ℝ)) ^ 2 +
            ((((30, 40) : ℤ × ℤ).2 : ℝ) - (((0, 0) : ℤ × ℤ).2 : ℝ)) ^ 2) /
          ((V2.GUIDELINE_WIDTH : ℝ) + (V2.DOTTED_LINE_GAP : ℝ))⌋₊ ∧
      ∀ i (hi : i < segs.length),
        segs.get ⟨i, hi⟩ =
          (V2.point_at (0, 0) (30, 40)
            ((i : ℚ) / (V2.numDots (0, 0) (30, 40) V2.GUIDELINE_WIDTH V2.DOTTED_LINE_GAP : ℚ)),
           V2.point_at (0, 0) (30, 40)
            (((i : ℚ) + 1/2) /
              (V2.numDots (0, 0) (30, 40) V2.GUIDELINE_WIDTH V2.DOTTED_LINE_GAP : ℚ)))) :=
  ⟨by decide, by decide,
    claim_C7 (0, 0) (30, 40) V2.GUIDELINE_WIDTH V2.DOTTED_LINE_GAP (by decide) (by decide)⟩

end PassportLayout

namespace PassportLayout

/-- Concrete evaluation of the center crop on a 1000 by 1500 source image:
the image is taller than the target ratio, so 215 rows are removed, 107 from
the top. -/
theorem crop_sample :
    crop_image_to_aspect_ratio 1000 1500 V2.ASPECT_RATIO = ⟨0, 107, 1000, 1392⟩ := by
  have hngt : ¬ (((1000 : ℤ) : ℚ) / ((1500 : ℤ) : ℚ) > V2.ASPECT_RATIO) := by
    norm_num [ V2.ASPECT_RATIO, V2.PASSPORT_PHOTO_PX]
  rw [crop_box_tall 1000 1500 V2.ASPECT_RATIO (by norm_num) aspect_pos.le hngt]
  have hcast : (((1000 : ℤ) : ℚ)) / V2.ASPECT_RATIO = ((531000 : ℤ) : ℚ) / ((413 : ℕ) : ℚ) := by
    norm_num [ V2.ASPECT_RATIO, V2.PASSPORT_PHOTO_PX]
  rw [hcast, Rat.floor_intCast_div_natCast]
  norm_num

/-- C8: whenever the input path does not resolve to a readable image, the
program prints an error, exits with a non-zero status, and writes no output
file: the export step is never reached. -/
theorem claim_C8 (fs : String → Option V2.SourceImage) (input_photo : String)
    (output_writable : Bool) (hmissing : fs input_photo = none) :
    (V2.run_program fs input_photo output_writable).exitCode ≠ 0 ∧
    (V2.run_program fs input_photo output_writable).errorPrinted = true ∧
    (V2.run_program fs input_photo output_writable).output = none := by
  unfold V2.run_program V2.create_photo_layout
  rw [hmissing]
  exact ⟨one_ne_zero, rfl, rfl⟩

/-- Witness for C8 on an empty filesystem. -/
theorem claim_C8_witness :
    ((fun _ : String => (none : Option V2.SourceImage)) "missing.jpg" = none) ∧
    ((V2.run_program (fun _ => none) "missing.jpg" true).exitCode ≠ 0 ∧
      (V2.run_program (fun _ => none) "missing.jpg" true).errorPrinted = true ∧
      (V2.run_program (fun _ => none) "missing.jpg" true).output = none) :=
  ⟨rfl, claim_C8 (fun _ => none) "missing.jpg" true rfl⟩

/-- C9: on a 1000 by 1500 input with the default constants, the variant B
pipeline succeeds and produces one 1200 by 1800 document containing exactly
6 framed-photo regions, each exactly 453 by 571 pixels, all inside the
canvas and pairwise non-overlapping; the source image is center-cropped to
the box (0, 107, 1000, 1392) on the way. -/
theorem claim_C9 :
    (V2.create_photo_layout (some ⟨1000, 1500⟩) true).exitCode = 0 ∧
    ((V2.create_photo_layout (some ⟨1000, 1500⟩) true).output.map fun L =>
        (L.canvas, L.photoRects)) = some ((1200, 1800), V2.pastedRects) ∧
    ((V2.create_photo_layout (some ⟨1000, 1500⟩) true).output.map fun L =>
        L.source_crop) = some ⟨0, 107, 1000, 1392⟩ ∧
    V2.pastedRects.length = 6 ∧
    (∀ r ∈ V2.pastedRects, r.w = 453 ∧ r.h = 571) ∧
    (∀ r ∈ V2.pastedRects, r.inside 1200 1800 = true) ∧
    V2.pastedRects.Pairwise (fun a b => a.disjointWith b = true) := by
  refine ⟨rfl, rfl, ?_, by decide, by decide, by decide, by decide⟩
  simp [V2.create_photo_layout, crop_sample]

end PassportLayout
